import Mathlib

/-!
# Verification of the RPCfi TRON flow-simulator engine

Shallow embedding of the simulation engine of `app.py` (class `RPCfiSimulator`)
over exact rational arithmetic: Python floats become `ℚ` with their decimal
literal values, `datetime` dates become explicit `(year, month, day)` records
(with the `datetime` invariant `1 ≤ month ≤ 12`), dicts iterated in insertion
order become association lists, and pandas data frames become lists of records.
Definitions follow the source line by line; theorems settle the frozen claims.
-/

namespace RPCfi

/-- A calendar date as used by `datetime` in `app.py`: the `datetime` type
itself guarantees `1 ≤ month ≤ 12`, which we carry as proof fields. The day
field is unconstrained (only ordering of days is ever used by the engine). -/
structure SimDate where
  year : Nat
  month : Nat
  day : Nat
  month_ge : 1 ≤ month
  month_le : month ≤ 12

/-- Linear month index of a date, `12 * year + month`; two dates of the same
day-of-month compare chronologically iff their month indexes compare. -/
def monthIndex (d : SimDate) : Nat := 12 * d.year + d.month

/-- Chronological order on dates (`datetime` comparison in
`while current_date <= end_date`): lexicographic on (year, month, day). -/
def dateLE (a b : SimDate) : Prop :=
  a.year < b.year ∨
    (a.year = b.year ∧ (a.month < b.month ∨ (a.month = b.month ∧ a.day ≤ b.day)))

instance (a b : SimDate) : Decidable (dateLE a b) :=
  inferInstanceAs (Decidable (a.year < b.year ∨
    (a.year = b.year ∧
      (a.month < b.month ∨ (a.month = b.month ∧ a.day ≤ b.day)))))

/-- The month-advance step at the bottom of the generation loop
(`app.py` lines 163–166): `current_date.replace(year+1, month=1)` when
`month == 12`, else `current_date.replace(month=month+1)`. The day is kept.
(`datetime.replace` would raise for a day invalid in the target month; the
theorems below are stated for month-granularity periods, day 1, where the
replacement is always valid.) -/
def nextMonth (d : SimDate) : SimDate :=
  if h : d.month = 12 then
    { year := d.year + 1, month := 1, day := d.day,
      month_ge := le_refl 1, month_le := by omega }
  else
    { year := d.year, month := d.month + 1, day := d.day,
      month_ge := by omega,
      month_le := by have h2 := d.month_le; omega }

/-- The month loop of `generate_future_revenue_data` (`app.py` lines 147–166):
starting from `current_date = start_date`, emit the current date and advance by
one month while `current_date <= end_date`. -/
def genMonths (cur last : SimDate) : List SimDate :=
  if h : dateLE cur last then cur :: genMonths (nextMonth cur) last else []
termination_by (monthIndex last + 1) - monthIndex cur
decreasing_by
  have hn : monthIndex (nextMonth cur) = monthIndex cur + 1 := by
    unfold nextMonth monthIndex
    split
    next hm => simp only []; omega
    next hm => simp only []; omega
  have hle : monthIndex cur ≤ monthIndex last := by
    have h1 := cur.month_ge
    have h2 := cur.month_le
    have h3 := last.month_ge
    have h4 := last.month_le
    unfold dateLE at h
    unfold monthIndex
    omega
  omega

/-- The fully-resolved simulation configuration consumed by `RPCfiSimulator`
(`__init__`, `app.py` lines 55–69). `token_prices` is read only at the native
and governance keys (both required by the configuration invariant), so it is
embedded as the two looked-up prices; `initial_lp` keeps the per-contributor
USD values; `apy_scenarios` is the named-scenario association list (insertion
order); `historical_data` is the monthly series in dict insertion order;
`sim_start`/`sim_end` are the resolved `simulation_period` bounds. -/
structure SimConfig where
  chain_name : String
  native_token : String
  governance_token : String
  price_native : ℚ
  price_governance : ℚ
  initial_lp : List ℚ
  growth_multiplier : ℚ
  expected_future_growth_multiplier : ℚ
  apy_scenarios : List (String × ℚ)
  historical_data : List (SimDate × ℚ)
  sim_start : SimDate
  sim_end : SimDate

/-- Source `foundation_lp_value = sum(self.initial_lp.values())` (`app.py` line 190). -/
def foundationLpValue (cfg : SimConfig) : ℚ := cfg.initial_lp.sum

/-- Base revenue lookup of `generate_future_revenue_data` (`app.py` lines
140–143): the last value of the historical series when the dict is non-empty
(`list(self.historical_data.values())[-1]`), else the constant `35000.0`. -/
def lastMonthRevenue (hist : List (SimDate × ℚ)) : ℚ :=
  if hist.isEmpty then 35000 else (hist.map Prod.snd).getLastD 0

/-- Signed month difference `(b.year - a.year) * 12 + (b.month - a.month)`
(`app.py` lines 151–152). -/
def monthsBetween (a b : SimDate) : ℤ :=
  ((b.year : ℤ) - (a.year : ℤ)) * 12 + ((b.month : ℤ) - (a.month : ℤ))

/-- The linear-ramp growth factor (`app.py` lines 153–156):
`1.0 + (expected_future_growth_multiplier - 1.0) * (months_elapsed / total_months)`
when `total_months > 0`, else `1.0`. -/
def growthFactor (fut : ℚ) (monthsElapsed totalMonths : ℤ) : ℚ :=
  if 0 < totalMonths then
    1 + (fut - 1) * ((monthsElapsed : ℚ) / (totalMonths : ℚ))
  else 1

/-- Source `generate_future_revenue_data` (`app.py` lines 130–168): the projected
monthly revenue mapping, one `(month, base_revenue * growth_factor)` entry per
loop iteration, in emission (= dict insertion) order, where
`base_revenue = last_month_revenue * growth_multiplier`. -/
def generate_future_revenue_data (cfg : SimConfig) : List (SimDate × ℚ) :=
  let base := lastMonthRevenue cfg.historical_data * cfg.growth_multiplier
  let total := monthsBetween cfg.sim_start cfg.sim_end
  (genMonths cfg.sim_start cfg.sim_end).map fun m =>
    (m, base * growthFactor cfg.expected_future_growth_multiplier
          (monthsBetween cfg.sim_start m) total)

/-- One insertion step of the stable sort modelling
`df.sort_values('Month')` in `load_revenue_data` (`app.py` line 79). -/
def insertMonth (x : SimDate × ℚ) : List (SimDate × ℚ) → List (SimDate × ℚ)
  | [] => [x]
  | y :: ys => if dateLE x.1 y.1 then x :: y :: ys else y :: insertMonth x ys

/-- Sort of the monthly rows by their date, modelling `df.sort_values('Month')`
(`app.py` line 79; the keys in use are pairwise distinct months, so any
comparison sort has the same result). -/
def sortByMonth : List (SimDate × ℚ) → List (SimDate × ℚ)
  | [] => []
  | x :: xs => insertMonth x (sortByMonth xs)

/-- Source `load_revenue_data` (`app.py` lines 75–95): sort the monthly rows by month,
then for each month emit 4 weekly rows, each with revenue
`monthly_revenue / 4.33` and date `month + timedelta(weeks=week)` for
`week = 0..3`. A weekly date is embedded symbolically as the pair
(month start date, whole-week offset), which is injective for the offsets
0–3 in use. -/
def load_revenue_data (monthly : List (SimDate × ℚ)) :
    List ((SimDate × Nat) × ℚ) :=
  (sortByMonth monthly).flatMap fun p =>
    (List.range 4).map fun week => ((p.1, week), p.2 / 4.33)

/-- Source `calculate_buybacks` (`app.py` lines 98–105): 25% of the weekly revenue to
the native-token buyback and 25% to the governance-token buyback. -/
def calculate_buybacks (weekly_revenue : ℚ) : ℚ × ℚ :=
  (0.25 * weekly_revenue, 0.25 * weekly_revenue)

/-- Source `calculate_lp_units` (`app.py` lines 107–115): buyback USD divided by the
token price gives token units. -/
def calculate_lp_units (cfg : SimConfig) (trx_buyback ankr_buyback : ℚ) :
    ℚ × ℚ :=
  (trx_buyback / cfg.price_native, ankr_buyback / cfg.price_governance)

/-- Source `calculate_lp_value` (`app.py` lines 117–123): total USD value of both
sides of the pair, `units * price` summed over the two tokens. -/
def calculate_lp_value (cfg : SimConfig) (trx_units ankr_units : ℚ) : ℚ :=
  trx_units * cfg.price_native + ankr_units * cfg.price_governance

/-- Source `calculate_yield` (`app.py` lines 125–128): weekly yield
`lp_value * (apy / 100) / 52`. -/
def calculate_yield (lp_value apy : ℚ) : ℚ := lp_value * (apy / 100) / 52

/-- One row of the simulation output (`app.py` lines 215–230), with the source
column names. The `Date` column carries the symbolic weekly date
(month start, week offset). -/
structure WeeklyResult where
  Date : SimDate × Nat
  Week : Nat
  RPC_Revenue_USD : ℚ
  TRX_Buyback_USD : ℚ
  ANKR_Buyback_USD : ℚ
  TRX_Units : ℚ
  ANKR_Units : ℚ
  Weekly_LP_Value_USD : ℚ
  Cumulative_RPCfi_LP_USD : ℚ
  Total_LP_TVL_USD : ℚ
  Dev_Weekly_Yield_USD : ℚ
  Foundation_Weekly_Yield_USD : ℚ
  Cumulative_Dev_Yield_USD : ℚ
  Cumulative_Foundation_Yield_USD : ℚ

/-- The weekly loop of `run_simulation` (`app.py` lines 192–230), as explicit
state passing: the remaining weekly rows, the current `week_num`, and the three
accumulators `cumulative_dev_lp`, `cumulative_dev_yield`,
`cumulative_foundation_yield` (all initialised to 0 at lines 185–187). -/
def simulateWeeks (cfg : SimConfig) (apy : ℚ) :
    List ((SimDate × Nat) × ℚ) → Nat → ℚ → ℚ → ℚ → List WeeklyResult
  | [], _, _, _, _ => []
  | (d, rev) :: rest, week_num, cum_lp, cum_dev, cum_found =>
    let bb := calculate_buybacks rev
    let units := calculate_lp_units cfg bb.1 bb.2
    let weekly_lp_value := calculate_lp_value cfg units.1 units.2
    let cum_lp2 := cum_lp + weekly_lp_value
    let dev_yield := calculate_yield cum_lp2 apy
    let foundation_yield := calculate_yield (foundationLpValue cfg) apy
    { Date := d
      Week := week_num + 1
      RPC_Revenue_USD := rev
      TRX_Buyback_USD := bb.1
      ANKR_Buyback_USD := bb.2
      TRX_Units := units.1
      ANKR_Units := units.2
      Weekly_LP_Value_USD := weekly_lp_value
      Cumulative_RPCfi_LP_USD := cum_lp2
      Total_LP_TVL_USD := cum_lp2 + foundationLpValue cfg
      Dev_Weekly_Yield_USD := dev_yield
      Foundation_Weekly_Yield_USD := foundation_yield
      Cumulative_Dev_Yield_USD := cum_dev + dev_yield
      Cumulative_Foundation_Yield_USD := cum_found + foundation_yield } ::
    simulateWeeks cfg apy rest (week_num + 1) cum_lp2 (cum_dev + dev_yield)
      (cum_found + foundation_yield)

/-- The weekly revenue rows a run iterates over (`app.py` lines 174–178):
`load_revenue_data(generate_future_revenue_data())`. -/
def weeklyPoints (cfg : SimConfig) : List ((SimDate × Nat) × ℚ) :=
  load_revenue_data (generate_future_revenue_data cfg)

/-- Source `run_simulation` at a resolved APY value (`app.py` lines 171–233): run the
weekly loop over the generated weekly rows from zeroed accumulators. -/
def runSimulation (cfg : SimConfig) (apy : ℚ) : List WeeklyResult :=
  simulateWeeks cfg apy (weeklyPoints cfg) 0 0 0 0

/-- The scenario lookup `self.apy_scenarios[apy_scenario]` (`app.py` line 181):
`none` models the `KeyError` for an unknown scenario name. -/
def lookupScenario (cfg : SimConfig) (name : String) : Option ℚ :=
  (cfg.apy_scenarios.find? fun p => p.1 == name).map Prod.snd

/-- Source `run_simulation(apy_scenario)` (`app.py` lines 171–233): resolve the
scenario name, then run; an unknown name raises (`none`). -/
def run_simulation (cfg : SimConfig) (scenario : String) :
    Option (List WeeklyResult) :=
  (lookupScenario cfg scenario).map fun apy => runSimulation cfg apy

/-- The non-yield columns of a result row: week date, week index, revenue, the
two buybacks, the two unit counts, the weekly LP value, cumulative LP and total
TVL. Everything except the four yield columns. -/
def stripYield (r : WeeklyResult) :
    (SimDate × Nat) × Nat × ℚ × ℚ × ℚ × ℚ × ℚ × ℚ × ℚ × ℚ :=
  (r.Date, r.Week, r.RPC_Revenue_USD, r.TRX_Buyback_USD, r.ANKR_Buyback_USD,
    r.TRX_Units, r.ANKR_Units, r.Weekly_LP_Value_USD,
    r.Cumulative_RPCfi_LP_USD, r.Total_LP_TVL_USD)

/-- Modelled from the spec: the two interchangeable growth strategies of §4.1;
`src/` holds only the linear-ramp variant (`app.py`), the milestone variant of
the second engine copy is not under `src/`. -/
inductive GrowthStrategy
  | milestone
  | linearRamp

/-- Modelled from the spec: the piecewise-linear milestone growth curve of the
engine variant absent from `src/` — fixed breakpoints elapsed 0 → 1.0×,
3 → 1.5×, 12 → 2.0×, 18 → 3.0×, capped at 3.0× beyond, linear interpolation
between consecutive breakpoints (spec §4.1). -/
def milestoneGrowthFactor (elapsed : Nat) : ℚ :=
  if elapsed ≤ 3 then 1 + (1.5 - 1) * ((elapsed : ℚ) / 3)
  else if elapsed ≤ 12 then 1.5 + (2 - 1.5) * (((elapsed : ℚ) - 3) / 9)
  else if elapsed ≤ 18 then 2 + (3 - 2) * (((elapsed : ℚ) - 12) / 6)
  else 3

/-- Modelled from the spec: strategy dispatch — "the active strategy is a
configuration choice, not a runtime branch discovered from data shape"
(spec §4.1). -/
def strategyFactor (g : GrowthStrategy) (fut : ℚ)
    (monthsElapsed totalMonths : ℤ) : ℚ :=
  match g with
  | .milestone => milestoneGrowthFactor monthsElapsed.toNat
  | .linearRamp => growthFactor fut monthsElapsed totalMonths

/-! ## Example dates and configurations used by witnesses and counterexamples -/

/-- January 1, 2026 — the default `simulation_period` start month. -/
def jan2026 : SimDate := ⟨2026, 1, 1, by norm_num, by norm_num⟩

/-- February 1, 2026. -/
def feb2026 : SimDate := ⟨2026, 2, 1, by norm_num, by norm_num⟩

/-- A TRON configuration with the shipped `config_tron.json` shape (prices
0.12 / 0.025, two 50000 foundation contributions, default APY scenarios), a
one-month simulation period and no historical data. -/
def cfgEx : SimConfig :=
  { chain_name := "Tron", native_token := "TRX", governance_token := "ANKR",
    price_native := 0.12, price_governance := 0.025,
    initial_lp := [50000, 50000],
    growth_multiplier := 1, expected_future_growth_multiplier := 2,
    apy_scenarios := [("worst", 20), ("base", 30), ("best", 40)],
    historical_data := [],
    sim_start := jan2026, sim_end := jan2026 }

/-- September 1, 2025 — a historical-series month. -/
def sep2025 : SimDate := ⟨2025, 9, 1, by norm_num, by norm_num⟩

/-- April 1, 2025 — a historical-series month. -/
def apr2025 : SimDate := ⟨2025, 4, 1, by norm_num, by norm_num⟩

/-- The example configuration with a negative foundation contribution
(every other field as in `cfgEx`). -/
def cfgNeg : SimConfig := { cfgEx with initial_lp := [-1000000] }

/-- The example configuration with one historical month of revenue 1000,
initial growth multiplier 3/2, future growth multiplier 2, and the two-month
period January–February 2026 (so the ramp horizon is 1 month). -/
def cfgC7 : SimConfig :=
  { cfgEx with
    historical_data := [(sep2025, 1000)],
    growth_multiplier := 3 / 2,
    expected_future_growth_multiplier := 2,
    sim_end := feb2026 }

/-- A non-chronological historical series: September 2025 listed before
April 2025. -/
def histNC : List (SimDate × ℚ) := [(sep2025, 500), (apr2025, 100)]

instance : DecidableEq SimDate := fun a b =>
  decidable_of_iff (a.year = b.year ∧ a.month = b.month ∧ a.day = b.day)
    (by cases a; cases b; simp)

/-! ## Basic date lemmas -/

/-- Advancing one month increments the month index by exactly one. -/
theorem monthIndex_nextMonth (d : SimDate) :
    monthIndex (nextMonth d) = monthIndex d + 1 := by
  unfold nextMonth monthIndex
  split
  next hm => simp only []; omega
  next hm => simp only []; omega

/-- Advancing one month keeps the day-of-month (`datetime.replace` keeps it). -/
theorem nextMonth_day (d : SimDate) : (nextMonth d).day = d.day := by
  unfold nextMonth
  split <;> rfl

/-- Chronological order implies month-index order. -/
theorem dateLE_monthIndex {a b : SimDate} (h : dateLE a b) :
    monthIndex a ≤ monthIndex b := by
  have h1 := a.month_ge
  have h2 := a.month_le
  have h3 := b.month_ge
  have h4 := b.month_le
  unfold dateLE at h
  unfold monthIndex
  omega

/-- For dates with compatible days, month-index order implies chronological
order. -/
theorem monthIndex_dateLE {a b : SimDate} (hm : monthIndex a ≤ monthIndex b)
    (hd : a.day ≤ b.day) : dateLE a b := by
  have h1 := a.month_ge
  have h2 := a.month_le
  have h3 := b.month_ge
  have h4 := b.month_le
  unfold monthIndex at hm
  unfold dateLE
  omega

/-- One unfolding of the month-generation loop. -/
theorem genMonths_eq (cur last : SimDate) :
    genMonths cur last =
      if dateLE cur last then cur :: genMonths (nextMonth cur) last else [] := by
  rw [genMonths]
  split <;> rfl

/-- The month loop emits exactly the ascending run of month indexes from the
start month to the end month inclusive, whenever the start day-of-month is at
most the end day-of-month (as in a month-granularity period). -/
theorem genMonths_map_monthIndex (n : Nat) :
    ∀ s e : SimDate, s.day ≤ e.day → monthIndex e + 1 - monthIndex s = n →
      (genMonths s e).map monthIndex = List.range' (monthIndex s) n := by
  induction n with
  | zero =>
    intro s e hd hn
    rw [genMonths_eq, if_neg]
    · rfl
    · intro hle
      have := dateLE_monthIndex hle
      omega
  | succ k ih =>
    intro s e hd hn
    have hle : dateLE s e := monthIndex_dateLE (by omega) hd
    rw [genMonths_eq, if_pos hle, List.map_cons, List.range'_succ]
    congr 1
    have h1 := monthIndex_nextMonth s
    rw [← h1]
    exact ih (nextMonth s) e (by rw [nextMonth_day]; exact hd) (by omega)

/-- Length form of `genMonths_map_monthIndex`. -/
theorem genMonths_length (s e : SimDate) (hd : s.day ≤ e.day) :
    (genMonths s e).length = monthIndex e + 1 - monthIndex s := by
  have h := genMonths_map_monthIndex (monthIndex e + 1 - monthIndex s) s e hd rfl
  have h2 : ((genMonths s e).map monthIndex).length =
      (List.range' (monthIndex s) (monthIndex e + 1 - monthIndex s)).length := by
    rw [h]
  simpa using h2

/-! ## Length of the pipeline stages -/

/-- Inserting one row grows the list by one. -/
theorem insertMonth_length (x : SimDate × ℚ) (l : List (SimDate × ℚ)) :
    (insertMonth x l).length = l.length + 1 := by
  induction l with
  | nil => rfl
  | cons y ys ih =>
    unfold insertMonth
    split
    · simp
    · simp [ih]

/-- Sorting the monthly rows preserves their number. -/
theorem sortByMonth_length (l : List (SimDate × ℚ)) :
    (sortByMonth l).length = l.length := by
  induction l with
  | nil => rfl
  | cons x xs ih => simp [sortByMonth, insertMonth_length, ih]

/-- The disaggregator emits exactly 4 weekly rows per monthly row. -/
theorem load_revenue_data_length (l : List (SimDate × ℚ)) :
    (load_revenue_data l).length = 4 * l.length := by
  unfold load_revenue_data
  rw [← sortByMonth_length l]
  generalize sortByMonth l = m
  induction m with
  | nil => rfl
  | cons x xs ih =>
    simp only [List.flatMap_cons, List.length_append, List.length_map,
      List.length_range, List.length_cons, ih]
    omega

/-- The weekly loop emits exactly one result row per weekly input row. -/
theorem simulateWeeks_length (cfg : SimConfig) (apy : ℚ)
    (l : List ((SimDate × Nat) × ℚ)) :
    ∀ wn c d f, (simulateWeeks cfg apy l wn c d f).length = l.length := by
  induction l with
  | nil => intro wn c d f; rfl
  | cons p rest ih =>
    intro wn c d f
    obtain ⟨pd, pr⟩ := p
    simp only [simulateWeeks, List.length_cons, ih]

/-- The projector emits one revenue entry per generated month. -/
theorem generate_length (cfg : SimConfig) :
    (generate_future_revenue_data cfg).length =
      (genMonths cfg.sim_start cfg.sim_end).length := by
  unfold generate_future_revenue_data
  simp

/-! ## Concrete evaluations of the month loop -/

/-- The month loop on the one-month period January 2026. -/
theorem genMonths_jan : genMonths jan2026 jan2026 = [jan2026] := by
  rw [genMonths_eq, if_pos (by decide), genMonths_eq, if_neg (by decide)]

/-- The month loop on the two-month period January–February 2026. -/
theorem genMonths_jan_feb : genMonths jan2026 feb2026 = [jan2026, feb2026] := by
  have h1 : nextMonth jan2026 = feb2026 := rfl
  have h2 : nextMonth feb2026 = ⟨2026, 3, 1, by norm_num, by norm_num⟩ := rfl
  rw [genMonths_eq, if_pos (by decide), h1, genMonths_eq, if_pos (by decide),
    h2, genMonths_eq, if_neg (by decide)]

/-! ## Row-wise invariants of the weekly loop -/

/-- Every emitted row's two buybacks sum to half its gross revenue. -/
theorem simulateWeeks_buyback_sum (cfg : SimConfig) (apy : ℚ)
    (l : List ((SimDate × Nat) × ℚ)) :
    ∀ wn c d f, (simulateWeeks cfg apy l wn c d f).Forall
      (fun w => w.TRX_Buyback_USD + w.ANKR_Buyback_USD =
        0.5 * w.RPC_Revenue_USD) := by
  induction l with
  | nil => intro wn c d f; trivial
  | cons p rest ih =>
    intro wn c d f
    obtain ⟨pd, pr⟩ := p
    simp only [simulateWeeks, List.forall_cons, calculate_buybacks]
    exact ⟨by ring, ih _ _ _ _⟩

/-- Every emitted row's total TVL is its cumulative LP plus the constant
foundation baseline. -/
theorem simulateWeeks_tvl (cfg : SimConfig) (apy : ℚ)
    (l : List ((SimDate × Nat) × ℚ)) :
    ∀ wn c d f, (simulateWeeks cfg apy l wn c d f).Forall
      (fun w => w.Total_LP_TVL_USD =
        w.Cumulative_RPCfi_LP_USD + foundationLpValue cfg) := by
  induction l with
  | nil => intro wn c d f; trivial
  | cons p rest ih =>
    intro wn c d f
    obtain ⟨pd, pr⟩ := p
    simp only [simulateWeeks, List.forall_cons]
    exact ⟨trivial, ih _ _ _ _⟩

/-- Unit conversion then re-valuation is the identity on the deposited USD,
for nonzero prices. -/
theorem lp_units_value_roundtrip (cfg : SimConfig)
    (hp1 : cfg.price_native ≠ 0) (hp2 : cfg.price_governance ≠ 0)
    (b1 b2 : ℚ) :
    calculate_lp_value cfg (calculate_lp_units cfg b1 b2).1
      (calculate_lp_units cfg b1 b2).2 = b1 + b2 := by
  unfold calculate_lp_value calculate_lp_units
  field_simp

/-! ## C1 — buybacks are exactly 25% + 25% = 50% of weekly revenue -/

/-- Claim C1: for every weekly revenue `r ≥ 0` the buyback allocator returns
exactly `0.25*r` for the native token and `0.25*r` for the governance token,
so their sum is exactly half the gross revenue; and in every simulated week of
any run the two buyback columns sum to half that week's revenue column. -/
theorem buyback_split_half_revenue (cfg : SimConfig) (apy : ℚ) (r : ℚ)
    (h : 0 ≤ r) :
    calculate_buybacks r = (0.25 * r, 0.25 * r) ∧
    (calculate_buybacks r).1 + (calculate_buybacks r).2 = 0.5 * r ∧
    (runSimulation cfg apy).Forall
      (fun w => w.TRX_Buyback_USD + w.ANKR_Buyback_USD =
        0.5 * w.RPC_Revenue_USD) := by
  refine ⟨rfl, ?_, simulateWeeks_buyback_sum cfg apy _ 0 0 0 0⟩
  unfold calculate_buybacks
  ring

/-- Witness for C1 at revenue 3 and the example TRON configuration. -/
theorem buyback_split_half_revenue_witness :
    0 ≤ (3 : ℚ) ∧
    (calculate_buybacks 3 = (0.25 * 3, 0.25 * 3) ∧
      (calculate_buybacks 3).1 + (calculate_buybacks 3).2 = 0.5 * 3 ∧
      (runSimulation cfgEx 30).Forall
        (fun w => w.TRX_Buyback_USD + w.ANKR_Buyback_USD =
          0.5 * w.RPC_Revenue_USD)) :=
  ⟨by norm_num, buyback_split_half_revenue cfgEx 30 3 (by norm_num)⟩

/-! ## C3 — total TVL = cumulative LP + constant baseline -/

/-- Claim C3: in every run, every weekly row's `Total_LP_TVL_USD` equals its
`Cumulative_RPCfi_LP_USD` plus the constant foundation baseline, and that
baseline is the sum of the configured `initial_lp` contributions — the same
constant for every week of the run. -/
theorem total_tvl_is_cumulative_plus_baseline (cfg : SimConfig) (apy : ℚ) :
    (runSimulation cfg apy).Forall
      (fun w => w.Total_LP_TVL_USD =
        w.Cumulative_RPCfi_LP_USD + foundationLpValue cfg) ∧
    foundationLpValue cfg = cfg.initial_lp.sum :=
  ⟨simulateWeeks_tvl cfg apy _ 0 0 0 0, rfl⟩

/-! ## C5 — unit conversion / re-valuation round trip is the identity -/

/-- Claim C5: for weekly revenue `r ≥ 0` and positive token prices, computing
token units as buyback/price and re-valuing them as units*price summed over
both tokens yields exactly the USD deposited that week — the sum of the two
buyback amounts. -/
theorem weekly_lp_value_eq_deposited (cfg : SimConfig) (r : ℚ) (h0 : 0 ≤ r)
    (hp1 : 0 < cfg.price_native) (hp2 : 0 < cfg.price_governance) :
    calculate_lp_value cfg
        (calculate_lp_units cfg (calculate_buybacks r).1
          (calculate_buybacks r).2).1
        (calculate_lp_units cfg (calculate_buybacks r).1
          (calculate_buybacks r).2).2 =
      (calculate_buybacks r).1 + (calculate_buybacks r).2 :=
  lp_units_value_roundtrip cfg (ne_of_gt hp1) (ne_of_gt hp2) _ _

/-- Witness for C5 at revenue 100 and the example TRON configuration. -/
theorem weekly_lp_value_eq_deposited_witness :
    (0 ≤ (100 : ℚ) ∧ 0 < cfgEx.price_native ∧ 0 < cfgEx.price_governance) ∧
    calculate_lp_value cfgEx
        (calculate_lp_units cfgEx (calculate_buybacks 100).1
          (calculate_buybacks 100).2).1
        (calculate_lp_units cfgEx (calculate_buybacks 100).1
          (calculate_buybacks 100).2).2 =
      (calculate_buybacks 100).1 + (calculate_buybacks 100).2 :=
  ⟨⟨by norm_num, by norm_num [cfgEx], by norm_num [cfgEx]⟩,
    weekly_lp_value_eq_deposited cfgEx 100 (by norm_num)
      (by norm_num [cfgEx]) (by norm_num [cfgEx])⟩

/-! ## C8 — one projected entry per calendar month, ascending, no gaps -/

/-- Claim C8: for a chronological month-granularity simulation period, the
revenue projector emits exactly one entry per calendar month from the start
month to the end month inclusive: the month indexes of its output are the
contiguous ascending range from the start month's index to the end month's
index (hence strictly ascending, no gaps, no duplicates), and both endpoint
months are present (the output is that of at least one month). -/
theorem projector_months_cover_period (cfg : SimConfig)
    (hse : dateLE cfg.sim_start cfg.sim_end)
    (hs1 : cfg.sim_start.day = 1) (he1 : 1 ≤ cfg.sim_end.day) :
    (generate_future_revenue_data cfg).map (fun p => monthIndex p.1) =
      List.range' (monthIndex cfg.sim_start)
        (monthIndex cfg.sim_end + 1 - monthIndex cfg.sim_start) ∧
    (generate_future_revenue_data cfg).length =
      monthIndex cfg.sim_end + 1 - monthIndex cfg.sim_start ∧
    1 ≤ monthIndex cfg.sim_end + 1 - monthIndex cfg.sim_start := by
  have hd : cfg.sim_start.day ≤ cfg.sim_end.day := by omega
  have hm := dateLE_monthIndex hse
  refine ⟨?_, ?_, by omega⟩
  · unfold generate_future_revenue_data
    rw [List.map_map]
    exact genMonths_map_monthIndex _ _ _ hd rfl
  · rw [generate_length, genMonths_length _ _ hd]

/-- Witness for C8 on the one-month example period. -/
theorem projector_months_cover_period_witness :
    (dateLE cfgEx.sim_start cfgEx.sim_end ∧ cfgEx.sim_start.day = 1 ∧
      1 ≤ cfgEx.sim_end.day) ∧
    ((generate_future_revenue_data cfgEx).map (fun p => monthIndex p.1) =
      List.range' (monthIndex cfgEx.sim_start)
        (monthIndex cfgEx.sim_end + 1 - monthIndex cfgEx.sim_start) ∧
    (generate_future_revenue_data cfgEx).length =
      monthIndex cfgEx.sim_end + 1 - monthIndex cfgEx.sim_start ∧
    1 ≤ monthIndex cfgEx.sim_end + 1 - monthIndex cfgEx.sim_start) :=
  ⟨⟨by decide, rfl, by decide⟩,
    projector_months_cover_period cfgEx (by decide) rfl (by decide)⟩

/-! ## C2 — 4 weekly results per calendar month of the period -/

/-- Claim C2: for a chronological month-granularity simulation period, a run's
weekly result sequence has length exactly 4 times the number of calendar
months in the period, both endpoint months inclusive. -/
theorem weekly_results_four_per_month (cfg : SimConfig) (apy : ℚ)
    (hse : dateLE cfg.sim_start cfg.sim_end)
    (hs1 : cfg.sim_start.day = 1) (he1 : 1 ≤ cfg.sim_end.day) :
    (runSimulation cfg apy).length =
      4 * (monthIndex cfg.sim_end + 1 - monthIndex cfg.sim_start) := by
  have hd : cfg.sim_start.day ≤ cfg.sim_end.day := by omega
  unfold runSimulation weeklyPoints
  rw [simulateWeeks_length, load_revenue_data_length, generate_length,
    genMonths_length _ _ hd]

/-- Witness for C2 on the one-month example period. -/
theorem weekly_results_four_per_month_witness :
    (dateLE cfgEx.sim_start cfgEx.sim_end ∧ cfgEx.sim_start.day = 1 ∧
      1 ≤ cfgEx.sim_end.day) ∧
    (runSimulation cfgEx 30).length =
      4 * (monthIndex cfgEx.sim_end + 1 - monthIndex cfgEx.sim_start) :=
  ⟨⟨by decide, rfl, by decide⟩,
    weekly_results_four_per_month cfgEx 30 (by decide) rfl (by decide)⟩

/-! ## C6 — the APY scenario affects only the yield columns -/

/-- Two weekly loops over the same weekly rows and the same cumulative-LP
state agree on all non-yield columns, whatever the two APY values and the two
pairs of yield accumulators. -/
theorem simulateWeeks_stripYield (cfg : SimConfig) (apy1 apy2 : ℚ)
    (l : List ((SimDate × Nat) × ℚ)) :
    ∀ wn c d1 f1 d2 f2,
      (simulateWeeks cfg apy1 l wn c d1 f1).map stripYield =
        (simulateWeeks cfg apy2 l wn c d2 f2).map stripYield := by
  induction l with
  | nil => intro wn c d1 f1 d2 f2; rfl
  | cons p rest ih =>
    intro wn c d1 f1 d2 f2
    obtain ⟨pd, pr⟩ := p
    simp only [simulateWeeks, List.map_cons]
    congr 1
    exact ih _ _ _ _ _ _

/-- Claim C6: two runs of the same configuration that differ only in the
selected APY scenario produce pointwise-identical week dates, week indexes,
revenues, buyback amounts, token units, weekly LP values, cumulative LP and
total-TVL columns — only the yield columns may differ. -/
theorem apy_scenario_only_affects_yield (cfg : SimConfig) (n1 n2 : String)
    (r1 r2 : List WeeklyResult)
    (h1 : run_simulation cfg n1 = some r1)
    (h2 : run_simulation cfg n2 = some r2) :
    r1.map stripYield = r2.map stripYield := by
  unfold run_simulation at h1 h2
  obtain ⟨a1, _, hr1⟩ := Option.map_eq_some'.mp h1
  obtain ⟨a2, _, hr2⟩ := Option.map_eq_some'.mp h2
  rw [← hr1, ← hr2]
  unfold runSimulation
  exact simulateWeeks_stripYield cfg a1 a2 _ 0 0 0 0 0 0

/-- Witness for C6: the example configuration run under its `worst` and `base`
scenarios. -/
theorem apy_scenario_only_affects_yield_witness :
    (run_simulation cfgEx "worst" = some (runSimulation cfgEx 20) ∧
      run_simulation cfgEx "base" = some (runSimulation cfgEx 30)) ∧
    (runSimulation cfgEx 20).map stripYield =
      (runSimulation cfgEx 30).map stripYield :=
  ⟨⟨rfl, rfl⟩,
    apy_scenario_only_affects_yield cfgEx "worst" "base" _ _ rfl rfl⟩

/-! ## C4 — monotonicity of the cumulative columns -/

/-- The weekly loop's three cumulative columns are chainwise non-decreasing,
and each is bounded below by its incoming accumulator, under: nonzero prices,
non-negative weekly revenues, a non-negative APY, a non-negative foundation
baseline and a non-negative incoming cumulative LP. -/
theorem simulateWeeks_chains (cfg : SimConfig) (apy : ℚ)
    (hp1 : cfg.price_native ≠ 0) (hp2 : cfg.price_governance ≠ 0)
    (ha : 0 ≤ apy) (hf : 0 ≤ foundationLpValue cfg) :
    ∀ (l : List ((SimDate × Nat) × ℚ)) (wn : Nat) (c d f : ℚ),
      (∀ p ∈ l, 0 ≤ p.2) → 0 ≤ c →
      (List.Chain' (fun a b =>
          a.Cumulative_RPCfi_LP_USD ≤ b.Cumulative_RPCfi_LP_USD)
          (simulateWeeks cfg apy l wn c d f) ∧
        List.Chain' (fun a b =>
          a.Cumulative_Dev_Yield_USD ≤ b.Cumulative_Dev_Yield_USD)
          (simulateWeeks cfg apy l wn c d f) ∧
        List.Chain' (fun a b =>
          a.Cumulative_Foundation_Yield_USD ≤
            b.Cumulative_Foundation_Yield_USD)
          (simulateWeeks cfg apy l wn c d f)) ∧
      ∀ r0 ∈ (simulateWeeks cfg apy l wn c d f).head?,
        c ≤ r0.Cumulative_RPCfi_LP_USD ∧
        d ≤ r0.Cumulative_Dev_Yield_USD ∧
        f ≤ r0.Cumulative_Foundation_Yield_USD := by
  intro l
  induction l with
  | nil =>
    intro wn c d f _ _
    refine ⟨⟨List.chain'_nil, List.chain'_nil, List.chain'_nil⟩, ?_⟩
    intro r0 hr0
    simp [simulateWeeks] at hr0
  | cons p rest ih =>
    intro wn c d f hl hc
    obtain ⟨pd, rev⟩ := p
    have hrev : 0 ≤ rev := hl _ (List.mem_cons_self _ _)
    have hwlv :
        calculate_lp_value cfg
            (calculate_lp_units cfg (calculate_buybacks rev).1
              (calculate_buybacks rev).2).1
            (calculate_lp_units cfg (calculate_buybacks rev).1
              (calculate_buybacks rev).2).2 =
          0.5 * rev := by
    {  rw [lp_units_value_roundtrip cfg hp1 hp2]
       unfold calculate_buybacks
       ring }
    have hw : (0 : ℚ) ≤ 0.5 * rev := by linarith
    have hc2 : 0 ≤ c + 0.5 * rev := by linarith
    have hdy : 0 ≤ calculate_yield (c + 0.5 * rev) apy := by
    {  unfold calculate_yield
       have : (0 : ℚ) ≤ apy / 100 := by positivity
       positivity }
    have hfy : 0 ≤ calculate_yield (foundationLpValue cfg) apy := by
    {  unfold calculate_yield
       positivity }
    have hih := ih (wn + 1) (c + 0.5 * rev) (d + calculate_yield (c + 0.5 * rev) apy)
      (f + calculate_yield (foundationLpValue cfg) apy)
      (fun q hq => hl q (List.mem_cons_of_mem _ hq)) hc2
    simp only [simulateWeeks, hwlv]
    refine ⟨⟨?_, ?_, ?_⟩, ?_⟩
    · rw [List.chain'_cons']
      exact ⟨fun y hy => (hih.2 y hy).1, hih.1.1⟩
    · rw [List.chain'_cons']
      exact ⟨fun y hy => (hih.2 y hy).2.1, hih.1.2.1⟩
    · rw [List.chain'_cons']
      exact ⟨fun y hy => (hih.2 y hy).2.2, hih.1.2.2⟩
    · intro r0 hr0
      simp only [List.head?_cons, Option.mem_def, Option.some.injEq] at hr0
      rw [← hr0]
      exact ⟨by linarith, by linarith, by linarith⟩

/-! ## Concrete runs of the example configurations -/

/-- The projector output of the one-month example configuration. -/
theorem generate_cfgEx : generate_future_revenue_data cfgEx = [(jan2026, 35000)] := by
  have h : genMonths cfgEx.sim_start cfgEx.sim_end = [jan2026] := genMonths_jan
  simp only [generate_future_revenue_data, h, List.map_cons, List.map_nil]
  norm_num [cfgEx, lastMonthRevenue, growthFactor, monthsBetween, jan2026]

/-- The weekly rows of the one-month example configuration. -/
theorem weeklyPoints_cfgEx :
    weeklyPoints cfgEx =
      [((jan2026, 0), 3500000 / 433), ((jan2026, 1), 3500000 / 433),
        ((jan2026, 2), 3500000 / 433), ((jan2026, 3), 3500000 / 433)] := by
  simp only [weeklyPoints, generate_cfgEx, load_revenue_data, sortByMonth,
    insertMonth, List.flatMap_cons, List.flatMap_nil]
  norm_num [List.range_succ]

/-- The projector output of the negative-baseline configuration (identical to
the example: the projector never reads `initial_lp`). -/
theorem generate_cfgNeg :
    generate_future_revenue_data cfgNeg = [(jan2026, 35000)] := by
  have h : genMonths cfgNeg.sim_start cfgNeg.sim_end = [jan2026] := genMonths_jan
  simp only [generate_future_revenue_data, h, List.map_cons, List.map_nil]
  norm_num [cfgNeg, cfgEx, lastMonthRevenue, growthFactor, monthsBetween,
    jan2026]

/-- The weekly rows of the negative-baseline configuration. -/
theorem weeklyPoints_cfgNeg :
    weeklyPoints cfgNeg =
      [((jan2026, 0), 3500000 / 433), ((jan2026, 1), 3500000 / 433),
        ((jan2026, 2), 3500000 / 433), ((jan2026, 3), 3500000 / 433)] := by
  simp only [weeklyPoints, generate_cfgNeg, load_revenue_data, sortByMonth,
    insertMonth, List.flatMap_cons, List.flatMap_nil]
  norm_num [List.range_succ]

/-- The projector output of the ramp configuration `cfgC7`: base revenue
`1000 * (3/2) = 1500` at month offset 0 (ramp factor 1), `1500 * 2 = 3000` at
month offset 1 = the horizon end (ramp factor 2). -/
theorem generate_cfgC7 :
    generate_future_revenue_data cfgC7 = [(jan2026, 1500), (feb2026, 3000)] := by
  have h : genMonths cfgC7.sim_start cfgC7.sim_end = [jan2026, feb2026] :=
    genMonths_jan_feb
  simp only [generate_future_revenue_data, h, List.map_cons, List.map_nil]
  norm_num [cfgC7, cfgEx, lastMonthRevenue, growthFactor, monthsBetween,
    jan2026, feb2026, sep2025]

/-! ## C4 — claim, counterexample, amended theorem and witness -/

/-- Counterexample to claim C4 as stated: the negative-baseline configuration
satisfies every hypothesis the claim lists (all weekly revenues ≥ 0, both
token prices > 0, APY > 0), yet its run's `Cumulative_Foundation_Yield_USD`
column is strictly decreasing — the claim omits that the configured foundation
baseline must be non-negative. -/
theorem cumulative_foundation_yield_decreases :
    (weeklyPoints cfgNeg).Forall (fun p => 0 ≤ p.2) ∧
    0 < cfgNeg.price_native ∧ 0 < cfgNeg.price_governance ∧ 0 < (30 : ℚ) ∧
    ¬ List.Chain' (fun a b =>
        a.Cumulative_Foundation_Yield_USD ≤ b.Cumulative_Foundation_Yield_USD)
      (runSimulation cfgNeg 30) := by
  refine ⟨?_, by norm_num [cfgNeg, cfgEx], by norm_num [cfgNeg, cfgEx],
    by norm_num, ?_⟩
  · rw [weeklyPoints_cfgNeg]
    simp only [List.Forall]
    norm_num
  · intro hch
    have h : runSimulation cfgNeg 30 =
        simulateWeeks cfgNeg 30 (weeklyPoints cfgNeg) 0 0 0 0 := rfl
    rw [h, weeklyPoints_cfgNeg] at hch
    simp only [simulateWeeks] at hch
    have h2 := (List.chain'_cons.mp hch).1
    norm_num [calculate_yield, foundationLpValue, cfgNeg, cfgEx] at h2

/-- Amended claim C4: for every configuration with all weekly revenues ≥ 0,
both token prices > 0, APY > 0 — and a non-negative foundation baseline — the
`Cumulative_RPCfi_LP_USD`, `Cumulative_Dev_Yield_USD` and
`Cumulative_Foundation_Yield_USD` columns are each non-decreasing in the week
index across the whole run. -/
theorem cumulative_columns_monotone (cfg : SimConfig) (apy : ℚ)
    (hr : (weeklyPoints cfg).Forall (fun p => 0 ≤ p.2))
    (hp1 : 0 < cfg.price_native) (hp2 : 0 < cfg.price_governance)
    (ha : 0 < apy) (hf : 0 ≤ foundationLpValue cfg) :
    List.Chain' (fun a b =>
        a.Cumulative_RPCfi_LP_USD ≤ b.Cumulative_RPCfi_LP_USD)
      (runSimulation cfg apy) ∧
    List.Chain' (fun a b =>
        a.Cumulative_Dev_Yield_USD ≤ b.Cumulative_Dev_Yield_USD)
      (runSimulation cfg apy) ∧
    List.Chain' (fun a b =>
        a.Cumulative_Foundation_Yield_USD ≤
          b.Cumulative_Foundation_Yield_USD)
      (runSimulation cfg apy) :=
  (simulateWeeks_chains cfg apy (ne_of_gt hp1) (ne_of_gt hp2) (le_of_lt ha)
    hf (weeklyPoints cfg) 0 0 0 0
    (List.forall_iff_forall_mem.mp hr) le_rfl).1

/-- Witness for the amended C4 on the example configuration. -/
theorem cumulative_columns_monotone_witness :
    ((weeklyPoints cfgEx).Forall (fun p => 0 ≤ p.2) ∧
      0 < cfgEx.price_native ∧ 0 < cfgEx.price_governance ∧ 0 < (30 : ℚ) ∧
      0 ≤ foundationLpValue cfgEx) ∧
    (List.Chain' (fun a b =>
        a.Cumulative_RPCfi_LP_USD ≤ b.Cumulative_RPCfi_LP_USD)
      (runSimulation cfgEx 30) ∧
    List.Chain' (fun a b =>
        a.Cumulative_Dev_Yield_USD ≤ b.Cumulative_Dev_Yield_USD)
      (runSimulation cfgEx 30) ∧
    List.Chain' (fun a b =>
        a.Cumulative_Foundation_Yield_USD ≤
          b.Cumulative_Foundation_Yield_USD)
      (runSimulation cfgEx 30)) :=
  ⟨⟨by rw [weeklyPoints_cfgEx]; simp only [List.Forall]; norm_num,
      by norm_num [cfgEx], by norm_num [cfgEx], by norm_num,
      by norm_num [foundationLpValue, cfgEx]⟩,
    cumulative_columns_monotone cfgEx 30
      (by rw [weeklyPoints_cfgEx]; simp only [List.Forall]; norm_num)
      (by norm_num [cfgEx]) (by norm_num [cfgEx]) (by norm_num)
      (by norm_num [foundationLpValue, cfgEx])⟩

/-! ## C7 — the linear ramp: claim, counterexample, amended theorem -/

/-- Counterexample to claim C7 as stated: with configured initial multiplier
a = 3/2, future multiplier b = 2, a historical base of 1000 and a one-month
horizon, the projector's month-0 revenue is `a * 1000` (multiplier a, as the
claim says), but its month-n revenue is `3 * 1000` — the effective multiplier
is `a * b = 3`, not the claimed `b = 2`, because the base revenue is
pre-scaled by `a` and the ramp factor itself runs from 1 to `b`. -/
theorem growth_ramp_counterexample :
    cfgC7.growth_multiplier = 3 / 2 ∧
    cfgC7.expected_future_growth_multiplier = 2 ∧
    lastMonthRevenue cfgC7.historical_data = 1000 ∧
    (generate_future_revenue_data cfgC7).map Prod.snd =
      [3 / 2 * 1000, 3 * 1000] ∧
    (3 : ℚ) * 1000 ≠ 2 * 1000 := by
  refine ⟨by norm_num [cfgC7, cfgEx], by norm_num [cfgC7, cfgEx],
    by norm_num [lastMonthRevenue, cfgC7, cfgEx], ?_, by norm_num⟩
  rw [generate_cfgC7]
  norm_num

/-- Amended claim C7: under the linear-ramp strategy the ramp factor applied
to the pre-scaled base revenue is exactly 1 at month 0 and exactly the
configured future multiplier b at month n (for a horizon of n ≥ 1 months),
monotonically increasing in between when b ≥ 1; the effective multiplier on
the historical base therefore ramps from the initial multiplier a to `a * b`
(not to b); and when the horizon length is zero months the factor is exactly
1 — the effective multiplier is exactly a — with no division by zero. -/
theorem growth_ramp_amended (a base b : ℚ) (n i j : ℤ) (hn : 1 ≤ n)
    (hb : 1 ≤ b) (hi : 0 ≤ i) (hij : i ≤ j) (hjn : j ≤ n) :
    growthFactor b 0 n = 1 ∧
    growthFactor b n n = b ∧
    growthFactor b i n ≤ growthFactor b j n ∧
    growthFactor b 0 0 = 1 ∧
    a * base * growthFactor b 0 n = a * base ∧
    a * base * growthFactor b n n = a * b * base := by
  have hn0 : (0 : ℤ) < n := by omega
  have hnq : (0 : ℚ) < (n : ℚ) := by exact_mod_cast hn0
  have h0 : growthFactor b 0 n = 1 := by
    unfold growthFactor
    rw [if_pos hn0]
    norm_num
  have hNQ : growthFactor b n n = b := by
    unfold growthFactor
    rw [if_pos hn0, div_self (ne_of_gt hnq)]
    ring
  have hmono : growthFactor b i n ≤ growthFactor b j n := by
    unfold growthFactor
    rw [if_pos hn0, if_pos hn0]
    have hd : (i : ℚ) / (n : ℚ) ≤ (j : ℚ) / (n : ℚ) := by
      apply (div_le_div_iff_of_pos_right hnq).mpr
      exact_mod_cast hij
    nlinarith
  refine ⟨h0, hNQ, hmono, ?_, by rw [h0]; ring, by rw [hNQ]; ring⟩
  unfold growthFactor
  norm_num

/-- Witness for the amended C7 at a = 3/2, base = 1000, b = 2, a 12-month
horizon and the month pair (3, 7). -/
theorem growth_ramp_amended_witness :
    ((1 : ℤ) ≤ 12 ∧ (1 : ℚ) ≤ 2 ∧ (0 : ℤ) ≤ 3 ∧ (3 : ℤ) ≤ 7 ∧
      (7 : ℤ) ≤ 12) ∧
    (growthFactor 2 0 12 = 1 ∧
      growthFactor 2 12 12 = 2 ∧
      growthFactor 2 3 12 ≤ growthFactor 2 7 12 ∧
      growthFactor 2 0 0 = 1 ∧
      3 / 2 * 1000 * growthFactor 2 0 12 = 3 / 2 * 1000 ∧
      3 / 2 * 1000 * growthFactor 2 12 12 = 3 / 2 * 2 * 1000) :=
  ⟨⟨by norm_num, by norm_num, by norm_num, by norm_num, by norm_num⟩,
    growth_ramp_amended (3 / 2) 1000 2 12 3 7 (by norm_num) (by norm_num)
      (by norm_num) (by norm_num) (by norm_num)⟩

/-! ## C9 — malformed historical series: claim, counterexample, amendment -/

/-- Counterexample to claim C9 as stated: a present but non-chronological
historical series is not replaced by the documented 35000 default — the
projector's base revenue is the series' last listed value, 100. -/
theorem malformed_history_counterexample :
    ¬ List.Chain' (fun p q => dateLE p.1 q.1) histNC ∧
    lastMonthRevenue histNC = 100 ∧
    (100 : ℚ) ≠ 35000 := by
  refine ⟨?_, ?_, by norm_num⟩
  · intro h
    simp only [histNC] at h
    exact absurd (List.chain'_cons.mp h).1 (by decide)
  · norm_num [lastMonthRevenue, histNC]

/-- Amended claim C9: the base-revenue lookup is total over all historical
series (the projector never raises on malformed data): on an empty series it
is the documented default 35000, and on any present series — chronological or
not — it is the series' last listed value, never the default. -/
theorem history_fallback_amended (x : SimDate × ℚ) (hist : List (SimDate × ℚ)) :
    lastMonthRevenue [] = 35000 ∧
    lastMonthRevenue (x :: hist) = ((x :: hist).map Prod.snd).getLast (by simp) := by
  constructor
  · norm_num [lastMonthRevenue]
  · simp [lastMonthRevenue, List.getLastD_eq_getLast?, List.getLast?_eq_getLast]

/-! ## C10 — the milestone growth curve: claim, counterexample, amendment -/

/-- Counterexample to claim C10 as stated: with the spec's fixed breakpoints
(3 → 1.5×, 12 → 2.0×), linear interpolation between consecutive breakpoints
gives `1.5 + 0.5 * (6 - 3) / 9 = 5/3 ≈ 1.667` at elapsed = 6, not the claimed
1.75. -/
theorem milestone_midpoint_counterexample :
    milestoneGrowthFactor 6 = 5 / 3 ∧ (5 / 3 : ℚ) ≠ 1.75 := by
  constructor
  · norm_num [milestoneGrowthFactor]
  · norm_num

/-- Amended claim C10: the spec-modelled piecewise-linear milestone curve,
selectable by configuration against the linear ramp, takes exactly the factor
1.0 at elapsed = 0, 1.5 at 3, 2.0 at 12, 3.0 at 18, stays capped at 3.0 for
every elapsed ≥ 18, and interpolates linearly between consecutive breakpoints
— which gives 5/3 (not 1.75) at elapsed = 6. -/
theorem milestone_curve_amended (t : Nat) (ht : 18 ≤ t) :
    milestoneGrowthFactor 0 = 1 ∧
    milestoneGrowthFactor 3 = 1.5 ∧
    milestoneGrowthFactor 12 = 2 ∧
    milestoneGrowthFactor 18 = 3 ∧
    milestoneGrowthFactor t = 3 ∧
    milestoneGrowthFactor 6 = 5 / 3 ∧
    strategyFactor GrowthStrategy.milestone 2 6 12 = milestoneGrowthFactor 6 ∧
    strategyFactor GrowthStrategy.linearRamp 2 6 12 = growthFactor 2 6 12 := by
  refine ⟨by norm_num [milestoneGrowthFactor], by norm_num [milestoneGrowthFactor],
    by norm_num [milestoneGrowthFactor], by norm_num [milestoneGrowthFactor],
    ?_, by norm_num [milestoneGrowthFactor], rfl, rfl⟩
  unfold milestoneGrowthFactor
  rcases Nat.lt_or_ge 18 t with hgt | hle
  · rw [if_neg (by omega), if_neg (by omega), if_neg (by omega)]
  · have ht18 : t = 18 := by omega
    subst ht18
    norm_num

/-- Witness for the amended C10 at elapsed = 24, beyond the cap point. -/
theorem milestone_curve_amended_witness :
    18 ≤ 24 ∧
    (milestoneGrowthFactor 0 = 1 ∧
      milestoneGrowthFactor 3 = 1.5 ∧
      milestoneGrowthFactor 12 = 2 ∧
      milestoneGrowthFactor 18 = 3 ∧
      milestoneGrowthFactor 24 = 3 ∧
      milestoneGrowthFactor 6 = 5 / 3 ∧
      strategyFactor GrowthStrategy.milestone 2 6 12 = milestoneGrowthFactor 6 ∧
      strategyFactor GrowthStrategy.linearRamp 2 6 12 = growthFactor 2 6 12) :=
  ⟨by norm_num, milestone_curve_amended 24 (by norm_num)⟩

end RPCfi
